import Mathlib

/-
Verification of the distributed emergency-ward coordination system
(ward nodes registering patients, reserving doctors and beds, and
recording emergency visits with leader-mediated replication).

The definitions below are shallow embeddings of the Python source:
  * models.py            : folio minting and the per-sala daily counter
  * routes/cluster_api.py: leader create-visit handler and the
                           replication receiver
  * bully/discovery.py   : multicast peer table, cleanup loop
  * bully/id_generator.py: node-id search by port scanning
  * the coordination server module (three iterations concatenated; the
    final, effective definitions are embedded): distributed locks,
    majority consensus, per-sala counter without a date column.
Stateful Python (SQLAlchemy session, module dictionaries) is embedded as
explicit state passing over lists of records.
-/

/-- Generic helper: apply `f` to the first element of the list satisfying
`p`, leaving everything else in place.  This models SQLAlchemy mutating
the single object returned by `query(...).first()` / `query.get(...)`. -/
def updateFirst {α : Type} (p : α → Bool) (f : α → α) : List α → List α
  | [] => []
  | a :: t => if p a then f a :: t else a :: updateFirst p f t

/-- Generic helper: Python dictionary assignment `d[k] = v` — replaces the
value at an existing key in place, or appends a new binding. -/
def dictInsert {κ β : Type} [BEq κ] (k : κ) (v : β) (d : List (κ × β)) : List (κ × β) :=
  if d.any (fun q => q.1 == k) then
    d.map (fun q => if q.1 == k then (k, v) else q)
  else
    d ++ [(k, v)]

/-- Decimal rendering padded with leading zeros to a minimum width of 3,
the meaning of the Python format directive in
`f"{consecutivo:03d}"` (models.py, `generate_folio`). -/
def pad3 (n : Nat) : String :=
  let s := toString n
  if s.length < 3 then String.mk (List.replicate (3 - s.length) '0') ++ s else s

/-- A row of the `CONSECUTIVOS` table of models.py: per-sala, per-day
counter (`fecha` is an abstract day number for `utcnow().date()`). -/
structure ConsecutivoRow where
  id_sala : Nat
  fecha : Nat
  consecutivo : Nat
deriving DecidableEq

/-- models.py `get_next_consecutivo`: look up the counter row for
`(id_sala, hoy)`; if absent create it at 1 and return 1, otherwise
increment the stored value and return it. -/
def get_next_consecutivo (id_sala hoy : Nat) (rows : List ConsecutivoRow) :
    Nat × List ConsecutivoRow :=
  match rows.find? (fun r => r.id_sala == id_sala && r.fecha == hoy) with
  | none => (1, rows ++ [{ id_sala := id_sala, fecha := hoy, consecutivo := 1 }])
  | some r =>
      (r.consecutivo + 1,
       updateFirst (fun x => x.id_sala == id_sala && x.fecha == hoy)
         (fun x => { x with consecutivo := r.consecutivo + 1 }) rows)

/-- models.py `generate_folio` (the `before_insert` event): when the visit
has no pre-set folio, draw the next per-sala consecutive and mint
`"{id_paciente}+{id_doctor}+{id_sala}+{consecutivo:03d}"`. -/
def generate_folio (folio0 : Option String) (id_paciente id_doctor id_sala hoy : Nat)
    (rows : List ConsecutivoRow) : String × List ConsecutivoRow :=
  match folio0 with
  | some f => (f, rows)
  | none =>
      let r := get_next_consecutivo id_sala hoy rows
      (toString id_paciente ++ "+" ++ toString id_doctor ++ "+" ++
         toString id_sala ++ "+" ++ pad3 r.1, r.2)

/-- A `DOCTORES` row (models.py `Doctor`), restricted to the fields the
cluster API reads and writes. -/
structure DoctorRec where
  id_doctor : Nat
  disponible : Bool
  activo : Bool
deriving DecidableEq

/-- A `CAMAS` row (models.py `Cama`). -/
structure CamaRec where
  id_cama : Nat
  numero : Nat
  ocupada : Bool
  id_paciente : Option Nat
deriving DecidableEq

/-- A `VISITAS_EMERGENCIA` row (models.py `VisitaEmergencia`), the same
fields that travel in the replication payload of cluster_api.py. -/
structure VisitaRec where
  folio : String
  id_paciente : Nat
  id_doctor : Nat
  id_cama : Nat
  id_trabajador : Nat
  id_sala : Nat
  sintomas : String
  diagnostico : Option String
  estado : String
deriving DecidableEq

/-- The per-node relational store, as the cluster API sees it.  Patients
and social workers are only tested for existence, so they are embedded as
id lists. -/
structure Store where
  doctores : List DoctorRec
  camas : List CamaRec
  pacientes : List Nat
  trabajadores : List Nat
  visitas : List VisitaRec
  consecutivos : List ConsecutivoRow
deriving DecidableEq

/-- Request body of `POST /cluster/create-visit`. -/
structure VisitRequest where
  id_paciente : Nat
  id_doctor : Nat
  id_cama : Nat
  id_trabajador : Nat
  id_sala : Nat
  sintomas : String
deriving DecidableEq

/-- Outcome of the create-visit handler: an error JSON with its HTTP
status (404 not-found, 409 resource-busy) or success with the minted
folio. -/
inductive CVResult where
  | error (status : Nat) (msg : String)
  | ok (folio : String)
deriving DecidableEq

/-- cluster_api.py `create_visit_distributed`: the leader-side handler
body that runs with `visit_creation_lock` held.  The whole function is
the critical section, so it is embedded as one sequential transition on
the store: validate doctor availability and bed freeness against the
current store, then insert the visit (the folio is minted by the
`before_insert` event), mark the doctor unavailable and the bed occupied
by the patient.  On any validation failure the store is untouched. -/
def create_visit_distributed (data : VisitRequest) (hoy : Nat) (st : Store) :
    CVResult × Store :=
  match st.doctores.find? (fun d => d.id_doctor == data.id_doctor) with
  | none => (CVResult.error 404 "Doctor not found", st)
  | some doctor =>
    if !doctor.disponible then (CVResult.error 409 "Doctor is not available", st)
    else
      match st.camas.find? (fun c => c.id_cama == data.id_cama) with
      | none => (CVResult.error 404 "Bed not found", st)
      | some cama =>
        if cama.ocupada then (CVResult.error 409 "Bed is occupied", st)
        else if !(st.pacientes.contains data.id_paciente) then
          (CVResult.error 404 "Patient not found", st)
        else if !(st.trabajadores.contains data.id_trabajador) then
          (CVResult.error 404 "Social worker not found", st)
        else
          let minted := generate_folio none data.id_paciente data.id_doctor
            data.id_sala hoy st.consecutivos
          let visita : VisitaRec :=
            { folio := minted.1, id_paciente := data.id_paciente,
              id_doctor := data.id_doctor, id_cama := data.id_cama,
              id_trabajador := data.id_trabajador, id_sala := data.id_sala,
              sintomas := data.sintomas, diagnostico := none, estado := "activa" }
          (CVResult.ok minted.1,
           { st with
             doctores := updateFirst (fun d => d.id_doctor == data.id_doctor)
               (fun d => { d with disponible := false }) st.doctores,
             camas := updateFirst (fun c => c.id_cama == data.id_cama)
               (fun c => { c with ocupada := true, id_paciente := some data.id_paciente }) st.camas,
             visitas := st.visitas ++ [visita],
             consecutivos := minted.2 })

/-- cluster_api.py `replicate_visit`: the replication receiver.  If a
visit with the payload's folio already exists it acknowledges success
without touching the store; otherwise it inserts the visit verbatim and
marks the doctor unavailable and the bed occupied (each only if present).
The returned flag is the `success` field of the JSON reply. -/
def replicate_visit (data : VisitaRec) (st : Store) : Bool × Store :=
  if st.visitas.any (fun v => v.folio == data.folio) then (true, st)
  else
    (true,
     { st with
       doctores := updateFirst (fun d => d.id_doctor == data.id_doctor)
         (fun d => { d with disponible := false }) st.doctores,
       camas := updateFirst (fun c => c.id_cama == data.id_cama)
         (fun c => { c with ocupada := true, id_paciente := some data.id_paciente }) st.camas,
       visitas := st.visitas ++ [data] })

/-- Number of stored visits carrying a given folio. -/
def countFolio (st : Store) (folio : String) : Nat :=
  (st.visitas.filter (fun v => v.folio == folio)).length

/-- The per-peer outcome of one TCP exchange in the lock round of the
coordination server: `some s` is the reply string received, `none` is a
timeout or connection failure (the `except` branch). -/
abbrev PeerReply := Option String

/-- The abort-on-first-failure counting loop inside the effective
`solicitar_bloqueo_distribuido` (the final, corrected definition in the
coordination server): walk the replies in order, return `none` as soon as
one differs from `"BLOQUEO_APROBADO"` (rejection or no response),
otherwise return the number of approvals. -/
def contar_confirmaciones : List PeerReply → Option Nat
  | [] => some 0
  | r :: rest =>
      if r == some "BLOQUEO_APROBADO" then
        (contar_confirmaciones rest).map (fun n => n + 1)
      else none

/-- The effective `solicitar_bloqueo_distribuido` of the coordination
server: abort if the resource is unavailable in the local database; with
no remote peers take the lock locally; otherwise require every contacted
peer to reply `"BLOQUEO_APROBADO"` (any rejection, timeout or connection
failure aborts immediately) and record the local `bloqueos_locales` entry
only when the approvals equal the number of peers.  `respuestas` holds
one entry per configured remote peer, in contact order. -/
def solicitar_bloqueo_distribuido (disponible_local : Bool)
    (respuestas : List PeerReply) (bloqueos : List (String × Nat))
    (clave : String) (ahora : Nat) : Bool × List (String × Nat) :=
  if !disponible_local then (false, bloqueos)
  else if respuestas.isEmpty then (true, dictInsert clave ahora bloqueos)
  else
    match contar_confirmaciones respuestas with
    | none => (false, bloqueos)
    | some n =>
        if n == respuestas.length then (true, dictInsert clave ahora bloqueos)
        else (false, bloqueos)

/-- The two inbound requests of the coordination server's `handle_client`
that touch the provisional lock table `bloqueos_locales`: an atomic lock
request (carrying whether the resource is free in the local database and
the arrival time recorded as `datetime.now()`), and a release. -/
inductive LockEvent where
  | solicitudAtomica (clave : String) (disponible_db : Bool) (t : Nat)
  | liberarRemoto (clave : String)
deriving DecidableEq

/-- The `handle_client` transition on `bloqueos_locales`: a lock request
is rejected if the key is already held or the resource is busy in the
local store, otherwise a provisional entry stamped with the arrival time
is recorded; a release deletes the key.  No other transition exists —
in particular nothing in the server ever removes an entry because of its
age. -/
def handle_client_lock (bloqueos : List (String × Nat)) : LockEvent → List (String × Nat)
  | LockEvent.solicitudAtomica clave disp t =>
      if bloqueos.any (fun q => q.1 == clave) then bloqueos
      else if !disp then bloqueos
      else dictInsert clave t bloqueos
  | LockEvent.liberarRemoto clave => bloqueos.filter (fun q => q.1 != clave)

/-- Fold a sequence of inbound lock-table requests. -/
def run_lock_events (bloqueos : List (String × Nat)) (evs : List LockEvent) :
    List (String × Nat) :=
  evs.foldl handle_client_lock bloqueos

/-- Count of `"CONSENSO_OK"` replies in a consensus round, the
`confirmaciones` accumulator of `propagar_transaccion_con_consenso`
(this loop does not abort early; unreachable peers simply contribute no
confirmation). -/
def contar_consenso_ok (respuestas : List PeerReply) : Nat :=
  respuestas.countP (fun r => r == some "CONSENSO_OK")

/-- The decision core of `propagar_transaccion_con_consenso`: with no
remote peers the command is executed locally at once; otherwise the
command is executed locally exactly when at least
`total_nodos / 2 + 1` peers replied `"CONSENSO_OK"`
(`umbral_consenso = (total_nodos // 2) + 1`). -/
def propagar_aplica_local (respuestas : List PeerReply) : Bool :=
  if respuestas.isEmpty then true
  else if respuestas.length / 2 + 1 ≤ contar_consenso_ok respuestas then true
  else false

/-- The `INCREMENTAR_CONSECUTIVO` branch of the coordination server's
`ejecutar_transaccion_local`, acting on the `CONSECUTIVOS_VISITAS` table
(rows `(sala_id, ultimo_consecutivo)`): read the row for the sala, update
it to its value plus one and return that, or insert it at 1.  The SQL
`UPDATE ... WHERE sala_id = ?` touches every row with that sala id. -/
def incrementar_consecutivo (sala : Nat) (tabla : List (Nat × Nat)) :
    Nat × List (Nat × Nat) :=
  match tabla.find? (fun q => q.1 == sala) with
  | some p =>
      (p.2 + 1, tabla.map (fun q => if q.1 == sala then (q.1, p.2 + 1) else q))
  | none => (1, tabla ++ [(sala, 1)])

/-- A peer entry of discovery.py's `discovered_nodes` table. -/
structure NodeInfo where
  host : String
  tcp_port : Nat
  udp_port : Nat
  last_seen : Nat
deriving DecidableEq

/-- The eviction test of one round of `NodeDiscovery._cleanup_loop`:
`time_since_seen > self.node_timeout`, a strict comparison. -/
def cleanup_evicts (node_timeout current_time last_seen : Nat) : Bool :=
  decide (node_timeout < current_time - last_seen)

/-- One round of `NodeDiscovery._cleanup_loop`: collect the peers whose
elapsed time since `last_seen` strictly exceeds `node_timeout`, remove
each of them.  The second component is the list of node ids handed to
`_remove_node`, i.e. the peers for which `on_lost` fires. -/
def cleanup_step (node_timeout current_time : Nat)
    (discovered : List (Nat × NodeInfo)) : List (Nat × NodeInfo) × List Nat :=
  (discovered.filter (fun q => !cleanup_evicts node_timeout current_time q.2.last_seen),
   (discovered.filter (fun q => cleanup_evicts node_timeout current_time q.2.last_seen)).map
     (fun q => q.1))

/-- A parsed multicast datagram as `NodeDiscovery._handle_message` reads
it: an `ANNOUNCE` with the sender's ports, a `LEAVE`, or any other
`type` (logged and ignored). -/
inductive DiscMsg where
  | announce (node_id tcp_port udp_port : Nat)
  | leave (node_id : Nat)
  | otro (node_id : Nat)
deriving DecidableEq

/-- The `node_id` field read first by `_handle_message`. -/
def DiscMsg.sender : DiscMsg → Nat
  | DiscMsg.announce n _ _ => n
  | DiscMsg.leave n => n
  | DiscMsg.otro n => n

/-- `NodeDiscovery._handle_message`: a message whose `node_id` equals the
local id is dropped before any table access — whichever way the
collision check on the sender address goes, that branch ends in
`return`.  An `ANNOUNCE` from another id upserts the peer entry with
`last_seen` set to the receipt time; a `LEAVE` removes the peer; other
types change nothing. -/
def handle_message (self_id : Nat) (m : DiscMsg) (sender_host : String)
    (now : Nat) (discovered : List (Nat × NodeInfo)) : List (Nat × NodeInfo) :=
  if m.sender == self_id then discovered
  else
    match m with
    | DiscMsg.announce nid tcp udp =>
        dictInsert nid { host := sender_host, tcp_port := tcp, udp_port := udp, last_seen := now } discovered
    | DiscMsg.leave nid => discovered.filter (fun q => q.1 != nid)
    | DiscMsg.otro _ => discovered

/-- An event acting on the discovery table: a received datagram, or one
round of the cleanup loop. -/
inductive DiscEvent where
  | recv (m : DiscMsg) (sender_host : String) (now : Nat)
  | limpieza (now : Nat)
deriving DecidableEq

/-- One transition of the discovery table. -/
def discovery_step (self_id node_timeout : Nat) (discovered : List (Nat × NodeInfo)) :
    DiscEvent → List (Nat × NodeInfo)
  | DiscEvent.recv m h now => handle_message self_id m h now discovered
  | DiscEvent.limpieza now => (cleanup_step node_timeout now discovered).1

/-- The discovery table reached from the initial empty table after a
sequence of receipts and cleanup rounds. -/
def run_discovery (self_id node_timeout : Nat) (evs : List DiscEvent) :
    List (Nat × NodeInfo) :=
  evs.foldl (discovery_step self_id node_timeout) []

/-- `NodeDiscovery.get_discovered_nodes`: the table in the
`{node_id: (host, tcp_port, udp_port)}` shape handed to the Bully layer. -/
def get_discovered_nodes (discovered : List (Nat × NodeInfo)) :
    List (Nat × (String × Nat × Nat)) :=
  discovered.map (fun q => (q.1, (q.2.host, q.2.tcp_port, q.2.udp_port)))

/-- Whether both ports derived from a candidate id bind successfully
(id_generator.py: `tcp_port = 5555 + id % 1000`,
`udp_port = 6000 + id % 1000`); `avail` abstracts the OS-level
`_is_port_available` checks. -/
def puertos_libres (avail : Nat → Bool) (candidate_id : Nat) : Bool :=
  avail (5555 + candidate_id % 1000) && avail (6000 + candidate_id % 1000)

/-- id_generator.py `generate_node_id`: try `max_attempts` candidate ids
starting at `candidate`, returning the first whose two derived ports are
free; `none` embeds the `RuntimeError` raised when the attempts run out. -/
def generate_node_id (avail : Nat → Bool) : Nat → Nat → Option Nat
  | _, 0 => none
  | candidate, fuel + 1 =>
      if puertos_libres avail candidate then some candidate
      else generate_node_id avail (candidate + 1) fuel

/-- Concrete request of the single-node scenario: patient 5, doctor 2,
bed 3, social worker 1, sala 1. -/
def req1 : VisitRequest :=
  { id_paciente := 5, id_doctor := 2, id_cama := 3, id_trabajador := 1,
    id_sala := 1, sintomas := "chest pain" }

/-- Concrete store for the single-node scenario: doctor 2 available, bed
3 free, patient 5 and worker 1 registered, sala-1 sequence at 0 (no
counter row yet). -/
def store1 : Store :=
  { doctores := [{ id_doctor := 2, disponible := true, activo := true }],
    camas := [{ id_cama := 3, numero := 3, ocupada := false, id_paciente := none }],
    pacientes := [5], trabajadores := [1], visitas := [], consecutivos := [] }

/-- Concrete request naming doctor 7. -/
def req7 : VisitRequest :=
  { id_paciente := 5, id_doctor := 7, id_cama := 3, id_trabajador := 1,
    id_sala := 2, sintomas := "fiebre" }

/-- Doctor 7, already attending a visit (not available). -/
def doctor7 : DoctorRec := { id_doctor := 7, disponible := false, activo := true }

/-- Bed 3, free. -/
def cama3 : CamaRec := { id_cama := 3, numero := 3, ocupada := false, id_paciente := none }

/-- Store in which doctor 7 is busy while everything else is free. -/
def storeBusy : Store :=
  { doctores := [doctor7], camas := [cama3], pacientes := [5],
    trabajadores := [1], visitas := [], consecutivos := [] }

/-- A concrete replication payload. -/
def visita9 : VisitaRec :=
  { folio := "9+4+2+014", id_paciente := 9, id_doctor := 4, id_cama := 6,
    id_trabajador := 1, id_sala := 2, sintomas := "mareo", diagnostico := none,
    estado := "activa" }

/-- A concrete port-availability oracle: only ports 5557 and 6002 (the
ports derived from id 2) are free. -/
def avail0 : Nat → Bool := fun p => p == 5557 || p == 6002

/-- A peer entry last seen at instant 0. -/
def info0 : NodeInfo := { host := "10.0.0.2", tcp_port := 5557, udp_port := 6002, last_seen := 0 }

/-- Generic find-after-update lemma: if `find?` locates `x` and the
update function preserves the predicate, then after updating the first
match, `find?` locates `f x`. -/
theorem find?_updateFirst {α : Type} (p : α → Bool) (f : α → α)
    (hf : ∀ a, p a = true → p (f a) = true) :
    ∀ (l : List α) (x : α), l.find? p = some x →
      (updateFirst p f l).find? p = some (f x) := by
  intro l
  induction l with
  | nil => intro x h; simp [List.find?] at h
  | cons a t ih =>
      intro x h
      by_cases hpa : p a = true
      · rw [List.find?_cons_of_pos t hpa] at h
        injection h with h
        subst h
        simp only [updateFirst, hpa, if_true]
        exact List.find?_cons_of_pos t (hf a hpa)
      · have hpa' : p a = false := by
          cases hv : p a
          · rfl
          · exact absurd hv hpa
        rw [List.find?_cons_of_neg t (by simp [hpa'])] at h
        simp only [updateFirst, hpa', Bool.false_eq_true, if_false]
        rw [List.find?_cons_of_neg _ (by simp [hpa'])]
        exact ih x h

/-- Generic find-after-map lemma for a conditional rewrite map, as
produced by an SQL `UPDATE ... WHERE`. -/
theorem find?_map_update {α : Type} (p : α → Bool) (g : α → α)
    (hg : ∀ a, p a = true → p (g a) = true) :
    ∀ (l : List α) (x : α), l.find? p = some x →
      (l.map (fun a => if p a then g a else a)).find? p = some (g x) := by
  intro l
  induction l with
  | nil => intro x h; simp [List.find?] at h
  | cons a t ih =>
      intro x h
      by_cases hpa : p a = true
      · rw [List.find?_cons_of_pos t hpa] at h
        injection h with h
        subst h
        simp only [List.map_cons, hpa, if_true]
        exact List.find?_cons_of_pos _ (hg a hpa)
      · have hpa' : p a = false := by
          cases hv : p a
          · rfl
          · exact absurd hv hpa
        rw [List.find?_cons_of_neg t (by simp [hpa'])] at h
        simp only [List.map_cons, hpa', Bool.false_eq_true, if_false]
        rw [List.find?_cons_of_neg _ (by simp [hpa'])]
        exact ih x h

/-- If nothing in the first list matches, searching the concatenation
searches the second list. -/
theorem find?_append_of_none {α : Type} (p : α → Bool) :
    ∀ (l₁ l₂ : List α), l₁.find? p = none → (l₁ ++ l₂).find? p = l₂.find? p := by
  intro l₁
  induction l₁ with
  | nil => intro l₂ _; rfl
  | cons a t ih =>
      intro l₂ h
      have hpa : p a = false := by
        cases hv : p a
        · rfl
        · rw [List.find?_cons_of_pos t hv] at h; cases h
      rw [List.find?_cons_of_neg t (by simp [hpa])] at h
      rw [List.cons_append, List.find?_cons_of_neg _ (by simp [hpa])]
      exact ih l₂ h

/-- Every member of `dictInsert k v d` either has key `k` or was already
in `d`. -/
theorem mem_dictInsert {κ β : Type} [BEq κ] [LawfulBEq κ] (k : κ) (v : β)
    (d : List (κ × β)) : ∀ q ∈ dictInsert k v d, q.1 = k ∨ q ∈ d := by
  intro q hq
  unfold dictInsert at hq
  by_cases hany : d.any (fun q => q.1 == k) = true
  · rw [if_pos hany] at hq
    rcases List.mem_map.mp hq with ⟨x, hx, hxq⟩
    by_cases hxk : (x.1 == k) = true
    · rw [if_pos hxk] at hxq
      left; rw [← hxq]
    · rw [if_neg hxk] at hxq
      right; rw [← hxq]; exact hx
  · rw [if_neg hany] at hq
    rcases List.mem_append.mp hq with h | h
    · right; exact h
    · left
      have : q = (k, v) := List.mem_singleton.mp h
      rw [this]

/-- An existing binding with a different key survives `dictInsert`. -/
theorem mem_dictInsert_of_ne {κ β : Type} [BEq κ] [LawfulBEq κ] (k c : κ) (v t : β)
    (d : List (κ × β)) (hmem : (c, t) ∈ d) (hne : c ≠ k) :
    (c, t) ∈ dictInsert k v d := by
  unfold dictInsert
  by_cases hany : d.any (fun q => q.1 == k) = true
  · rw [if_pos hany]
    have himg : ((fun q : κ × β => if q.1 == k then (k, v) else q) (c, t)) = (c, t) := by
      simp [hne]
    rw [← himg]
    exact List.mem_map_of_mem _ hmem
  · rw [if_neg hany]
    exact List.mem_append_left _ hmem

/-- The abort-on-first-failure loop succeeds exactly on all-approving
reply lists, and then counts all of them. -/
theorem contar_confirmaciones_spec : ∀ rs : List PeerReply,
    contar_confirmaciones rs =
      if rs.all (fun r => r == some "BLOQUEO_APROBADO") then some rs.length else none := by
  intro rs
  induction rs with
  | nil => simp [contar_confirmaciones]
  | cons r t ih =>
      by_cases hr : (r == some "BLOQUEO_APROBADO") = true
      · simp only [contar_confirmaciones, hr, if_true, ih, List.all_cons, Bool.true_and,
          List.length_cons]
        by_cases ht : t.all (fun r => r == some "BLOQUEO_APROBADO") = true
        · simp [ht]
        · simp [ht]
      · simp [contar_confirmaciones, hr, List.all_cons]

/-- A successful id search returns a candidate within the attempted
window, with both derived ports free, and minimal among such candidates. -/
theorem generate_node_id_some_spec (avail : Nat → Bool) :
    ∀ (fuel s c : Nat), generate_node_id avail s fuel = some c →
      s ≤ c ∧ c < s + fuel ∧ puertos_libres avail c = true ∧
        ∀ x, s ≤ x → x < c → puertos_libres avail x = false := by
  intro fuel
  induction fuel with
  | zero => intro s c h; simp [generate_node_id] at h
  | succ n ih =>
      intro s c h
      by_cases hs : puertos_libres avail s = true
      · rw [generate_node_id, if_pos hs] at h
        injection h with h
        subst h
        exact ⟨Nat.le_refl s, by omega, hs, fun x hx1 hx2 => absurd hx1 (by omega)⟩
      · rw [generate_node_id, if_neg hs] at h
        rcases ih (s + 1) c h with ⟨h1, h2, h3, h4⟩
        refine ⟨by omega, by omega, h3, ?_⟩
        intro x hx1 hx2
        rcases Nat.eq_or_lt_of_le hx1 with heq | hlt
        · rw [← heq]
          cases hv : puertos_libres avail s
          · rfl
          · exact absurd hv hs
        · exact h4 x hlt hx2

/-- The id search raises (returns `none`) exactly when no candidate in
the attempted window has both derived ports free. -/
theorem generate_node_id_none_spec (avail : Nat → Bool) :
    ∀ (fuel s : Nat), generate_node_id avail s fuel = none ↔
      ∀ k, k < fuel → puertos_libres avail (s + k) = false := by
  intro fuel
  induction fuel with
  | zero => intro s; simp [generate_node_id]
  | succ n ih =>
      intro s
      by_cases hs : puertos_libres avail s = true
      · rw [generate_node_id, if_pos hs]
        constructor
        · intro h; cases h
        · intro hall
          have h0 := hall 0 (by omega)
          rw [Nat.add_zero] at h0
          rw [h0] at hs
          cases hs
      · rw [generate_node_id, if_neg hs]
        rw [ih (s + 1)]
        constructor
        · intro hall k hk
          cases k with
          | zero =>
              rw [Nat.add_zero]
              cases hv : puertos_libres avail s
              · rfl
              · exact absurd hv hs
          | succ j =>
              have := hall j (by omega)
              have harr : s + 1 + j = s + (j + 1) := by omega
              rw [harr] at this
              exact this
        · intro hall k hk
          have := hall (k + 1) (by omega)
          have harr : s + (k + 1) = s + 1 + k := by omega
          rw [harr] at this
          exact this

/-- C9: For every start id `s` and the default bound of 100 attempts, the
node-id generator returns the smallest candidate id in `[s, s+99]` for
which both derived ports (tcp = 5555 + id mod 1000, udp = 6000 + id mod
1000) bind successfully, and it raises the no-free-identity error if and
only if none of those 100 candidates has both ports free. -/
theorem node_id_search_spec (avail : Nat → Bool) (s : Nat) :
    (∀ c, generate_node_id avail s 100 = some c →
       s ≤ c ∧ c ≤ s + 99 ∧ puertos_libres avail c = true ∧
         ∀ x, s ≤ x → x < c → puertos_libres avail x = false) ∧
    (generate_node_id avail s 100 = none ↔
       ∀ k, k ≤ 99 → puertos_libres avail (s + k) = false) := by
  constructor
  · intro c h
    rcases generate_node_id_some_spec avail 100 s c h with ⟨h1, h2, h3, h4⟩
    exact ⟨h1, by omega, h3, h4⟩
  · rw [generate_node_id_none_spec avail 100 s]
    constructor
    · intro hall k hk; exact hall k (by omega)
    · intro hall k hk; exact hall k (by omega)

/-- Witness for C9 at the concrete oracle freeing only the ports of id 2,
searching from start id 1: the generator settles on id 2, whose ports are
free, and every smaller candidate from 1 had a busy port. -/
theorem node_id_search_spec_witness :
    1 ≤ 2 ∧ 2 ≤ 1 + 99 ∧ puertos_libres avail0 2 = true ∧
      ∀ x, 1 ≤ x → x < 2 → puertos_libres avail0 x = false :=
  (node_id_search_spec avail0 1).1 2 (by decide)

/-- C2: For every lock acquisition request over any set of remote peers,
the requester obtains the distributed lock only if every contacted peer
replies with a grant: any single denial reply, timeout, or connection
failure from a peer causes the acquisition to abort and return failure
(no majority quorum suffices). -/
theorem lock_requires_unanimous_grants :
    ∀ (d : Bool) (rs : List PeerReply) (b : List (String × Nat)) (k : String) (t : Nat),
      ((solicitar_bloqueo_distribuido d rs b k t).1 = true ↔
        d = true ∧ ∀ r ∈ rs, r = some "BLOQUEO_APROBADO") ∧
      (∀ r ∈ rs, r ≠ some "BLOQUEO_APROBADO" →
        solicitar_bloqueo_distribuido d rs b k t = (false, b)) := by
  intro d rs b k t
  cases d with
  | false =>
      constructor
      · simp [solicitar_bloqueo_distribuido]
      · intro r hr hbad
        simp [solicitar_bloqueo_distribuido]
  | true =>
      cases rs with
      | nil =>
          constructor
          · simp [solicitar_bloqueo_distribuido]
          · intro r hr hbad; cases hr
      | cons r0 rest =>
          by_cases hall : (r0 :: rest).all (fun r => r == some "BLOQUEO_APROBADO") = true
          · have hmem : ∀ r ∈ (r0 :: rest), r = some "BLOQUEO_APROBADO" := by
              intro r hr
              have := List.all_eq_true.mp hall r hr
              simpa using this
            have hres : solicitar_bloqueo_distribuido true (r0 :: rest) b k t
                = (true, dictInsert k t b) := by
              simp [solicitar_bloqueo_distribuido, contar_confirmaciones_spec, hall]
            constructor
            · rw [hres]
              constructor
              · intro _; exact ⟨rfl, hmem⟩
              · intro _; rfl
            · intro r hr hbad
              exact absurd (hmem r hr) hbad
          · have hnmem : ¬ ∀ r ∈ (r0 :: rest), r = some "BLOQUEO_APROBADO" := by
              intro hmem
              apply hall
              exact List.all_eq_true.mpr (fun r hr => by simp [hmem r hr])
            have hres : solicitar_bloqueo_distribuido true (r0 :: rest) b k t
                = (false, b) := by
              simp [solicitar_bloqueo_distribuido, contar_confirmaciones_spec, hall]
            constructor
            · rw [hres]
              constructor
              · intro hfalse; cases hfalse
              · intro hcon
                exact absurd hcon.2 hnmem
            · intro r hr hbad
              exact hres

/-- Witness for C2: doctor available locally, first peer grants but the
second never responds — the acquisition fails and no local lock entry is
recorded. -/
theorem lock_requires_unanimous_grants_witness :
    solicitar_bloqueo_distribuido true [some "BLOQUEO_APROBADO", none] [] "DOCTOR_7" 0
      = (false, []) :=
  (lock_requires_unanimous_grants true [some "BLOQUEO_APROBADO", none] [] "DOCTOR_7" 0).2
    none (by decide) (by decide)

/-- C4: For every majority-consensus command broadcast to N remote peers,
the command is applied locally if and only if at least floor(N/2)+1 peers
acknowledge with CONSENSUS_OK; in particular exactly N/2 acknowledgments
yield consensus failure and N/2+1 yield success, and with zero remote
peers the command is applied locally directly. -/
theorem consensus_majority_threshold :
    (∀ rs : List PeerReply, rs ≠ [] →
       (propagar_aplica_local rs = true ↔ rs.length / 2 + 1 ≤ contar_consenso_ok rs)) ∧
    propagar_aplica_local [] = true ∧
    (∀ rs : List PeerReply, rs ≠ [] → contar_consenso_ok rs = rs.length / 2 →
       propagar_aplica_local rs = false) ∧
    (∀ rs : List PeerReply, rs ≠ [] → contar_consenso_ok rs = rs.length / 2 + 1 →
       propagar_aplica_local rs = true) := by
  have hbase : ∀ rs : List PeerReply, rs ≠ [] →
      (propagar_aplica_local rs = true ↔ rs.length / 2 + 1 ≤ contar_consenso_ok rs) := by
    intro rs hne
    cases rs with
    | nil => exact absurd rfl hne
    | cons a t =>
        by_cases hc : (a :: t).length / 2 + 1 ≤ contar_consenso_ok (a :: t)
        · simp [propagar_aplica_local, hc]
        · simp [propagar_aplica_local, hc]
  refine ⟨hbase, by simp [propagar_aplica_local], ?_, ?_⟩
  · intro rs hne hceq
    cases hv : propagar_aplica_local rs
    · rfl
    · have := (hbase rs hne).mp hv
      omega
  · intro rs hne hceq
    exact (hbase rs hne).mpr (by omega)

/-- Witness for C4 with four remote peers: two CONSENSUS_OK replies (one
peer rejecting, one silent) are exactly N/2 and the command is not
applied; three CONSENSUS_OK replies are N/2+1 and it is applied. -/
theorem consensus_majority_threshold_witness :
    propagar_aplica_local
        [some "CONSENSO_OK", some "CONSENSO_OK", some "CONSENSO_RECHAZADO", none] = false ∧
    propagar_aplica_local
        [some "CONSENSO_OK", some "CONSENSO_OK", some "CONSENSO_OK", none] = true :=
  ⟨consensus_majority_threshold.2.2.1 _ (by decide) (by decide),
   consensus_majority_threshold.2.2.2 _ (by decide) (by decide)⟩

/-- C3: For every visit record, sending the identical replicate-visit
payload to the replication receiver twice in sequence results in exactly
one stored visit record with that folio, and the second call returns
success without re-inserting (the store is left untouched). -/
theorem replicate_visit_idempotent (data : VisitaRec) (st : Store)
    (h : countFolio st data.folio = 0) :
    (replicate_visit data st).1 = true ∧
    countFolio (replicate_visit data st).2 data.folio = 1 ∧
    replicate_visit data (replicate_visit data st).2
      = (true, (replicate_visit data st).2) := by
  have hfil : st.visitas.filter (fun v => v.folio == data.folio) = [] :=
    List.length_eq_zero.mp h
  have hany : st.visitas.any (fun v => v.folio == data.folio) = false := by
    rw [List.any_eq_false]
    intro v hv
    exact List.filter_eq_nil_iff.mp hfil v hv
  refine ⟨?_, ?_, ?_⟩
  · simp [replicate_visit, hany]
  · simp only [replicate_visit, hany, Bool.false_eq_true, if_false]
    simp [countFolio, List.filter_append, hfil]
  · simp only [replicate_visit, hany, Bool.false_eq_true, if_false]
    have hany1 : (st.visitas ++ [data]).any (fun v => v.folio == data.folio) = true := by
      rw [List.any_eq_true]
      exact ⟨data, List.mem_append_right _ (by simp), by simp⟩
    simp [replicate_visit, hany1]

/-- Witness for C3: replicating a concrete payload twice into a store
that does not hold its folio keeps exactly one copy and the second call
acknowledges without change. -/
theorem replicate_visit_idempotent_witness :
    (replicate_visit visita9 store1).1 = true ∧
    countFolio (replicate_visit visita9 store1).2 visita9.folio = 1 ∧
    replicate_visit visita9 (replicate_visit visita9 store1).2
      = (true, (replicate_visit visita9 store1).2) :=
  replicate_visit_idempotent visita9 store1 (by decide)

/-- C6: For every create-visit request processed by the leader, the
availability of the requested doctor and bed is checked against the
current store inside the `visit_creation_lock` critical section (the
whole embedded transition runs under that mutex), and if the doctor is
not available or the bed is occupied at that check, the request is
rejected with a resource-busy (HTTP 409) error and no visit is inserted
and no resource state is changed. -/
theorem create_visit_busy_rejected (data : VisitRequest) (hoy : Nat) (st : Store)
    (d : DoctorRec) (c : CamaRec)
    (hd : st.doctores.find? (fun x => x.id_doctor == data.id_doctor) = some d)
    (hc : st.camas.find? (fun x => x.id_cama == data.id_cama) = some c)
    (hbusy : d.disponible = false ∨ c.ocupada = true) :
    ∃ msg, create_visit_distributed data hoy st = (CVResult.error 409 msg, st) := by
  by_cases hdisp : d.disponible = true
  · have hb : c.ocupada = true := by
      rcases hbusy with hb | hb
      · rw [hdisp] at hb; cases hb
      · exact hb
    refine ⟨"Bed is occupied", ?_⟩
    simp [create_visit_distributed, hd, hc, hdisp, hb]
  · have hb : d.disponible = false := by
      cases hv : d.disponible
      · rfl
      · exact absurd hv hdisp
    refine ⟨"Doctor is not available", ?_⟩
    simp [create_visit_distributed, hd, hb]

/-- Witness for C6: a concrete store in which doctor 7 is attending a
visit; the request naming doctor 7 is rejected with a 409 error and the
store is unchanged. -/
theorem create_visit_busy_rejected_witness :
    ∃ msg, create_visit_distributed req7 0 storeBusy = (CVResult.error 409 msg, storeBusy) :=
  create_visit_busy_rejected req7 0 storeBusy doctor7 cama3 (by decide) (by decide)
    (Or.inl (by decide))

/-- C1 (amended): For every visit inserted through the leader write path
whose folio field is not pre-set, the minted folio equals
`"{id_paciente}+{id_doctor}+{id_sala}+{NNN}"` where NNN is the next
per-sala sequence value zero-padded to a minimum of 3 digits — exactly 3
digits only while the sequence value stays below 1000; in particular,
when the sala sequence is 0, a CreateVisit for patient 5, doctor 2,
sala 1 yields folio `"5+2+1+001"`. -/
theorem folio_minted_min3_pad :
    (∀ (p d sala hoy : Nat) (rows : List ConsecutivoRow),
       (generate_folio none p d sala hoy rows).1 =
         toString p ++ "+" ++ toString d ++ "+" ++ toString sala ++ "+" ++
           pad3 (get_next_consecutivo sala hoy rows).1) ∧
    (∀ n : Nat, (pad3 n).length = max 3 (toString n).length) ∧
    pad3 1 = "001" ∧ pad3 14 = "014" ∧ pad3 999 = "999" ∧ pad3 1000 = "1000" ∧
    (create_visit_distributed req1 0 store1).1 = CVResult.ok "5+2+1+001" := by
  refine ⟨fun p d sala hoy rows => rfl, ?_, by decide, by decide, by decide, by decide,
    by decide⟩
  intro n
  unfold pad3
  by_cases hl : (toString n).length < 3
  · rw [if_pos hl, String.length_append]
    have hrep : (String.mk (List.replicate (3 - (toString n).length) '0')).length
        = 3 - (toString n).length := by
      show (List.replicate (3 - (toString n).length) '0').length
        = 3 - (toString n).length
      exact List.length_replicate _ _
    rw [hrep]
    omega
  · rw [if_neg hl]
    omega

/-- Counterexample for C1 as stated: once the per-sala counter reaches
999, the next minted folio is `"5+2+1+1000"`, whose trailing component
has four digits — no three-character NNN matches the claimed template. -/
theorem folio_exactly_three_digits_fails :
    (generate_folio none 5 2 1 0 [{ id_sala := 1, fecha := 0, consecutivo := 999 }]).1
      = "5+2+1+1000" ∧
    ¬ ∃ NNN : String, NNN.length = 3 ∧ "5+2+1+1000" = "5+2+1+" ++ NNN := by
  constructor
  · decide
  · rintro ⟨N, h3, he⟩
    have hlen : ("5+2+1+1000" : String).length = ("5+2+1+" : String).length + N.length := by
      rw [he, String.length_append]
    rw [h3] at hlen
    exact absurd hlen (by decide)

/-- C5 (amended): For a fixed sala_id, successive values returned by the
coordination server's `INCREMENTAR_CONSECUTIVO` transaction strictly
increase with no resets; successive values returned by models.py's
`get_next_consecutivo` strictly increase as long as both calls fall on
the same day — that counter is keyed by `(id_sala, fecha)` and restarts
at 1 on a new day. -/
theorem sequence_strictly_increasing_same_day :
    (∀ (sala : Nat) (tabla : List (Nat × Nat)),
       (incrementar_consecutivo sala tabla).1 <
         (incrementar_consecutivo sala (incrementar_consecutivo sala tabla).2).1) ∧
    (∀ (sala hoy : Nat) (rows : List ConsecutivoRow),
       (get_next_consecutivo sala hoy rows).1 <
         (get_next_consecutivo sala hoy (get_next_consecutivo sala hoy rows).2).1) := by
  have stepA : ∀ (sala : Nat) (l : List (Nat × Nat)) (q : Nat × Nat),
      l.find? (fun x => x.1 == sala) = some q →
        (incrementar_consecutivo sala l).1 = q.2 + 1 := by
    intro sala l q hq
    unfold incrementar_consecutivo
    rw [hq]
  have stepB : ∀ (sala hoy : Nat) (l : List ConsecutivoRow) (q : ConsecutivoRow),
      l.find? (fun r => r.id_sala == sala && r.fecha == hoy) = some q →
        (get_next_consecutivo sala hoy l).1 = q.consecutivo + 1 := by
    intro sala hoy l q hq
    unfold get_next_consecutivo
    rw [hq]
  constructor
  · intro sala tabla
    cases h : tabla.find? (fun q => q.1 == sala) with
    | some p =>
        have h1 : (incrementar_consecutivo sala tabla).1 = p.2 + 1 := stepA sala tabla p h
        have hsnd : (incrementar_consecutivo sala tabla).2
            = tabla.map (fun q => if q.1 == sala then (q.1, p.2 + 1) else q) := by
          unfold incrementar_consecutivo
          rw [h]
        have h2 : (tabla.map (fun q => if q.1 == sala then (q.1, p.2 + 1) else q)).find?
            (fun q => q.1 == sala) = some (p.1, p.2 + 1) :=
          find?_map_update (fun q : Nat × Nat => q.1 == sala) (fun q => (q.1, p.2 + 1))
            (fun a ha => by simpa using ha) tabla p h
        have h3 := stepA sala _ _ h2
        rw [h1, hsnd, h3]
        show p.2 + 1 < p.2 + 1 + 1
        omega
    | none =>
        have h1 : (incrementar_consecutivo sala tabla).1 = 1 := by
          unfold incrementar_consecutivo
          rw [h]
        have hsnd : (incrementar_consecutivo sala tabla).2 = tabla ++ [(sala, 1)] := by
          unfold incrementar_consecutivo
          rw [h]
        have h2 : (tabla ++ [(sala, 1)]).find? (fun q => q.1 == sala)
            = some (sala, 1) := by
          rw [find?_append_of_none _ tabla [(sala, 1)] h]
          simp [List.find?]
        have h3 := stepA sala _ _ h2
        rw [h1, hsnd, h3]
        show 1 < 1 + 1
        omega
  · intro sala hoy rows
    cases h : rows.find? (fun r => r.id_sala == sala && r.fecha == hoy) with
    | some r =>
        have h1 : (get_next_consecutivo sala hoy rows).1 = r.consecutivo + 1 :=
          stepB sala hoy rows r h
        have hsnd : (get_next_consecutivo sala hoy rows).2
            = updateFirst (fun x => x.id_sala == sala && x.fecha == hoy)
                (fun x => { x with consecutivo := r.consecutivo + 1 }) rows := by
          unfold get_next_consecutivo
          rw [h]
        have h2 : (updateFirst (fun x => x.id_sala == sala && x.fecha == hoy)
              (fun x => { x with consecutivo := r.consecutivo + 1 }) rows).find?
              (fun x => x.id_sala == sala && x.fecha == hoy)
            = some { r with consecutivo := r.consecutivo + 1 } :=
          find?_updateFirst (fun x : ConsecutivoRow => x.id_sala == sala && x.fecha == hoy)
            (fun x => { x with consecutivo := r.consecutivo + 1 })
            (fun a ha => by simpa using ha) rows r h
        have h3 := stepB sala hoy _ _ h2
        rw [h1, hsnd, h3]
        show r.consecutivo + 1 < r.consecutivo + 1 + 1
        omega
    | none =>
        have h1 : (get_next_consecutivo sala hoy rows).1 = 1 := by
          unfold get_next_consecutivo
          rw [h]
        have hsnd : (get_next_consecutivo sala hoy rows).2
            = rows ++ [{ id_sala := sala, fecha := hoy, consecutivo := 1 }] := by
          unfold get_next_consecutivo
          rw [h]
        have h2 : (rows ++ [({ id_sala := sala, fecha := hoy, consecutivo := 1 } : ConsecutivoRow)]).find?
              (fun r => r.id_sala == sala && r.fecha == hoy)
            = some ({ id_sala := sala, fecha := hoy, consecutivo := 1 } : ConsecutivoRow) := by
          rw [find?_append_of_none _ rows _ h]
          simp [List.find?]
        have h3 := stepB sala hoy _ _ h2
        rw [h1, hsnd, h3]
        show 1 < 1 + 1
        omega

/-- Counterexample for C5 as stated: the models.py counter for sala 1
returns 1 and then 2 on day 0, and on the following day the next call
returns 1 again — a successive pair of returned values that is not
strictly increasing. -/
theorem sequence_resets_at_day_boundary :
    (get_next_consecutivo 1 0 []).1 = 1 ∧
    (get_next_consecutivo 1 0 (get_next_consecutivo 1 0 []).2).1 = 2 ∧
    (get_next_consecutivo 1 1
       (get_next_consecutivo 1 0 (get_next_consecutivo 1 0 []).2).2).1 = 1 ∧
    ¬ (2 < 1) := by decide

/-- C7 (amended): A cleanup round retains exactly the peers whose elapsed
time since `last_seen` is at most `node_timeout` and evicts (firing
`on_lost` for) exactly those whose elapsed time strictly exceeds it; in
particular a peer whose age is exactly `node_timeout` is retained, not
evicted. -/
theorem cleanup_evicts_iff_strictly_older :
    ∀ (node_timeout now : Nat) (table : List (Nat × NodeInfo)),
      (∀ entry : Nat × NodeInfo,
         entry ∈ (cleanup_step node_timeout now table).1 ↔
           entry ∈ table ∧ now - entry.2.last_seen ≤ node_timeout) ∧
      (∀ i : Nat,
         i ∈ (cleanup_step node_timeout now table).2 ↔
           ∃ info : NodeInfo, (i, info) ∈ table ∧ node_timeout < now - info.last_seen) := by
  intro t now table
  constructor
  · intro entry
    unfold cleanup_step
    rw [List.mem_filter]
    constructor
    · rintro ⟨hm, hp⟩
      refine ⟨hm, ?_⟩
      simp [cleanup_evicts] at hp
      omega
    · rintro ⟨hm, hle⟩
      refine ⟨hm, ?_⟩
      simp [cleanup_evicts]
      omega
  · intro i
    unfold cleanup_step
    simp only [List.mem_map]
    constructor
    · rintro ⟨q, hq, rfl⟩
      rcases List.mem_filter.mp hq with ⟨hm, hp⟩
      refine ⟨q.2, Prod.mk.eta ▸ hm, ?_⟩
      simp [cleanup_evicts] at hp
      exact hp
    · rintro ⟨info, hm, hlt⟩
      refine ⟨(i, info), List.mem_filter.mpr ⟨hm, ?_⟩, rfl⟩
      simp [cleanup_evicts]
      exact hlt

/-- Counterexample for C7 as stated: with the default 15-second timeout,
a peer whose age is exactly 15 seconds survives the cleanup round and no
`on_lost` callback fires for it — eviction requires strictly greater
age. -/
theorem cleanup_exact_timeout_retained :
    cleanup_step 15 15 [(2, info0)] = ([(2, info0)], []) := by decide

/-- C8 (amended): A provisional lock entry recorded on a peer persists
until an explicit release for its key arrives: no transition of the lock
table depends on the clock, so with no release in the subsequent
request stream the entry — stamped with its acquisition time — remains
in `bloqueos_locales` forever, however much time passes. -/
theorem provisional_lock_persists_without_release :
    ∀ (evs : List LockEvent) (bloqueos : List (String × Nat)) (clave : String) (t : Nat),
      (clave, t) ∈ bloqueos →
      (∀ e ∈ evs, e ≠ LockEvent.liberarRemoto clave) →
      (clave, t) ∈ run_lock_events bloqueos evs := by
  intro evs
  induction evs with
  | nil => intro b k t hm _; exact hm
  | cons e rest ih =>
      intro b k t hm hno
      have hstep : (k, t) ∈ handle_client_lock b e := by
        cases e with
        | solicitudAtomica clave disp te =>
            simp only [handle_client_lock]
            by_cases hany : b.any (fun q => q.1 == clave) = true
            · rw [if_pos hany]; exact hm
            · rw [if_neg hany]
              cases disp with
              | false => simpa using hm
              | true =>
                  have hkc : k ≠ clave := by
                    intro heq
                    apply hany
                    rw [List.any_eq_true]
                    exact ⟨(k, t), hm, by simp [heq]⟩
                  simpa using mem_dictInsert_of_ne clave k te t b hm hkc
        | liberarRemoto clave =>
            have hkc : k ≠ clave := by
              intro heq
              exact hno (LockEvent.liberarRemoto clave)
                (List.mem_cons_self _ _) (by rw [heq])
            simp only [handle_client_lock]
            exact List.mem_filter.mpr ⟨hm, by simpa using hkc⟩
      have hrun : run_lock_events b (e :: rest)
          = run_lock_events (handle_client_lock b e) rest := rfl
      rw [hrun]
      exact ih (handle_client_lock b e) k t hstep
        (fun x hx => hno x (List.mem_cons_of_mem e hx))

/-- Witness for C8 (amended): the provisional entry for DOCTOR_1 granted
at instant 0 survives a later unrelated grant and an unrelated release. -/
theorem provisional_lock_persists_without_release_witness :
    ("DOCTOR_1", 0) ∈ run_lock_events [("DOCTOR_1", 0)]
        [LockEvent.solicitudAtomica "CAMA_2" true 50, LockEvent.liberarRemoto "CAMA_2"] :=
  provisional_lock_persists_without_release
    [LockEvent.solicitudAtomica "CAMA_2" true 50, LockEvent.liberarRemoto "CAMA_2"]
    [("DOCTOR_1", 0)] "DOCTOR_1" 0 (by decide) (by decide)

/-- Counterexample for C8 as stated: a peer grants a provisional entry at
instant 0 and the requester never releases it.  The lock table has no
clock-driven transition, so at observation instant 100 — an age of 100
seconds, well past the claimed 30-second TTL — the entry is still held. -/
theorem provisional_lock_outlives_ttl :
    run_lock_events [] [LockEvent.solicitudAtomica "DOCTOR_1" true 0]
      = [("DOCTOR_1", 0)] ∧
    ("DOCTOR_1", 0) ∈ run_lock_events [] [LockEvent.solicitudAtomica "DOCTOR_1" true 0] ∧
    100 - 0 > 30 := by decide

/-- Auxiliary invariant for C10: starting from a table free of the local
id, every discovery transition keeps it free of the local id. -/
theorem discovery_fold_preserves_no_self (self t : Nat) :
    ∀ (l : List DiscEvent) (tb : List (Nat × NodeInfo)),
      (∀ q ∈ tb, q.1 ≠ self) →
      ∀ q ∈ l.foldl (discovery_step self t) tb, q.1 ≠ self := by
  intro l
  induction l with
  | nil => intro tb h; simpa using h
  | cons e rest ih =>
      intro tb h
      have hstep : ∀ q ∈ discovery_step self t tb e, q.1 ≠ self := by
        cases e with
        | recv m host now =>
            cases m with
            | announce nid tcp udp =>
                by_cases hs : (nid == self) = true
                · have heq : discovery_step self t tb
                      (DiscEvent.recv (DiscMsg.announce nid tcp udp) host now) = tb := by
                    simp [discovery_step, handle_message, DiscMsg.sender, hs]
                  rw [heq]; exact h
                · have heq : discovery_step self t tb
                      (DiscEvent.recv (DiscMsg.announce nid tcp udp) host now)
                      = dictInsert nid
                          { host := host, tcp_port := tcp, udp_port := udp, last_seen := now }
                          tb := by
                    simp [discovery_step, handle_message, DiscMsg.sender, hs]
                  rw [heq]
                  intro q hq
                  rcases mem_dictInsert nid _ tb q hq with h1 | h2
                  · rw [h1]
                    intro heq2
                    exact hs (by simp [heq2])
                  · exact h q h2
            | leave nid =>
                by_cases hs : (nid == self) = true
                · have heq : discovery_step self t tb
                      (DiscEvent.recv (DiscMsg.leave nid) host now) = tb := by
                    simp [discovery_step, handle_message, DiscMsg.sender, hs]
                  rw [heq]; exact h
                · have heq : discovery_step self t tb
                      (DiscEvent.recv (DiscMsg.leave nid) host now)
                      = tb.filter (fun q => q.1 != nid) := by
                    simp [discovery_step, handle_message, DiscMsg.sender, hs]
                  rw [heq]
                  intro q hq
                  exact h q (List.mem_filter.mp hq).1
            | otro nid =>
                have heq : discovery_step self t tb
                    (DiscEvent.recv (DiscMsg.otro nid) host now) = tb := by
                  by_cases hs : (nid == self) = true
                  · simp [discovery_step, handle_message, DiscMsg.sender, hs]
                  · simp [discovery_step, handle_message, DiscMsg.sender, hs]
                rw [heq]; exact h
        | limpieza now =>
            intro q hq
            have hq1 : q ∈ (cleanup_step t now tb).1 := hq
            unfold cleanup_step at hq1
            exact h q (List.mem_filter.mp hq1).1
      exact ih (discovery_step self t tb e) hstep

/-- C10: The discovery peer table never contains an entry keyed by the
local node's own id: every received multicast message whose node_id
equals the local id is dropped before the peer-table upsert (whether or
not it triggers the collision callback), so `get_discovered_nodes` never
returns the local id, in every reachable state. -/
theorem discovery_table_never_contains_self :
    ∀ (self_id node_timeout : Nat) (evs : List DiscEvent)
      (p : Nat × (String × Nat × Nat)),
      p ∈ get_discovered_nodes (run_discovery self_id node_timeout evs) →
      p.1 ≠ self_id := by
  intro self t evs p hp
  rcases List.mem_map.mp hp with ⟨q, hq, hpq⟩
  have hinv := discovery_fold_preserves_no_self self t evs [] (by simp) q hq
  rw [← hpq]
  exact hinv

/-- Witness for C10: after node 1 receives an announce from node 3, the
table returned by `get_discovered_nodes` holds node 3, and its key is not
the local id 1. -/
theorem discovery_table_never_contains_self_witness :
    (3, ("10.0.0.5", 5560, 6005)) ∈ get_discovered_nodes
        (run_discovery 1 15 [DiscEvent.recv (DiscMsg.announce 3 5560 6005) "10.0.0.5" 7]) ∧
    ((3, ("10.0.0.5", 5560, 6005)) : Nat × (String × Nat × Nat)).1 ≠ 1 :=
  ⟨by decide,
   discovery_table_never_contains_self 1 15
     [DiscEvent.recv (DiscMsg.announce 3 5560 6005) "10.0.0.5" 7]
     (3, ("10.0.0.5", 5560, 6005)) (by decide)⟩
